import Mathlib

/-!
Verification of the `oceanData` repository (single source file `earthData.py`).

Shallow embedding conventions:
* A numeric grid cell that may be the missing-value marker NaN is modelled as
  `Option Int`: `none` is NaN, `some q` a finite reading.  `data_cleanup` only
  ever tests cells with `np.isnan` and selects whole rows, never doing
  arithmetic on them, so this captures exactly the behaviour the code uses.
* 2-D numpy grids are `List (List Value)` (rows of cells); the 3-D
  `sea_surface_temperature` array is `List (List (List Value))`, first axis
  time, exactly as indexed by `ds.sea_surface_temperature[0]`.
* Python keyword arguments are a record of `Option` fields; `if(kwargs)` is
  the emptiness test on that record, and `kwargs["key"]` on a missing key is a
  KeyError, modelled as `Except.error`.
* `sys.exit(0)` is modelled by an explicit `RunOutcome.exit 0` value.
-/

namespace EarthData

/-- One numeric grid cell: `none` models NaN, `some q` a finite value. -/
abbrev Value := Option Int

/-- `np.isnan` applied to a single cell. -/
def isnan (v : Value) : Bool := v.isNone

/-- `np.any(np.isnan(row))`: does a grid row contain at least one NaN? -/
def rowHasNaN (row : List Value) : Bool := row.any isnan

/-- `np.any(np.isnan(grid), axis=1)` (lines 133 and 136 of `earthData.py`):
the per-row any-NaN mask of a 2-D grid. -/
def nan_row_mask (grid : List (List Value)) : List Bool := grid.map rowHasNaN

/-- The gridded dataset consumed by `data_cleanup`: 2-D `lat` and `lon`
grids, the 3-D `sea_surface_temperature` array (first axis time), and the
scalar `time_coverage_start` metadata. -/
structure GriddedDataset where
  lat : List (List Value)
  lon : List (List Value)
  sea_surface_temperature : List (List (List Value))
  time_coverage_start : String

/-- numpy boolean indexing `xs[~mask]` (lines 142 to 144): keep exactly the
rows whose mask entry is `false`, in order. -/
def maskFilter : List Bool → List α → List α
  | _, [] => []
  | [], _ :: _ => []
  | b :: ms, x :: xs => if b then maskFilter ms xs else x :: maskFilter ms xs

/-- Line 139: `combined_mask = np.logical_and(nan_lat_mask, nan_lon_mask)`. -/
def combined_mask (ds : GriddedDataset) : List Bool :=
  List.zipWith (fun a b => a && b) (nan_row_mask ds.lat) (nan_row_mask ds.lon)

/-- The dict `ds_cleaned` built on lines 147 to 151. -/
structure CleanedSample where
  lon_cleaned : List (List Value)
  lat_cleaned : List (List Value)
  sst_cleaned : List (List Value)
  time_coverage_start : String
deriving DecidableEq

/-- `data_cleanup` (lines 115 to 153): mask rows whose `lat` row AND `lon`
row each contain a NaN, drop them from `lon`, `lat` and the first SST time
slice with the same boolean index, and copy `time_coverage_start` through.
`ds.sea_surface_temperature[0]` raises IndexError when the time axis is
empty; that failure is modelled as `none`. -/
def data_cleanup (ds : GriddedDataset) : Option CleanedSample :=
  match ds.sea_surface_temperature with
  | [] => none
  | sst :: _ =>
      some { lon_cleaned := maskFilter (combined_mask ds) ds.lon,
             lat_cleaned := maskFilter (combined_mask ds) ds.lat,
             sst_cleaned := maskFilter (combined_mask ds) sst,
             time_coverage_start := ds.time_coverage_start }

/-- The call-level view of `data_cleanup`, threading the dataset state
through the call.  The body (lines 126 to 151) only reads `ds.lat`,
`ds.lon`, `ds.sea_surface_temperature` and `ds.time_coverage_start` into
fresh arrays (`np.array` copies, and boolean indexing allocates new arrays)
and assigns into the fresh dict `ds_cleaned`; no statement assigns into
`ds`, so the dataset handed back to the caller is the one passed in. -/
def data_cleanup_run (ds : GriddedDataset) : Option CleanedSample × GriddedDataset :=
  (data_cleanup ds, ds)

/-- The keyword-argument record accepted by `search_params.__init__`
(line 30): each of the five documented parameters may be present or
absent. -/
structure Kwargs where
  start_date : Option String
  start_time : Option String
  end_date : Option String
  end_time : Option String
  bounding_box : Option (Int × Int × Int × Int)

/-- Python truthiness of the `kwargs` dict on line 46: empty iff no
parameter was supplied. -/
def Kwargs.isEmpty (k : Kwargs) : Bool :=
  k.start_date.isNone && k.start_time.isNone && k.end_date.isNone &&
    k.end_time.isNone && k.bounding_box.isNone

/-- The constructed `search_params` value object (attributes set on
lines 47 to 57). -/
structure search_params where
  start_date : String
  start_time : String
  end_date : String
  end_time : String
  bounding_box : Int × Int × Int × Int
deriving DecidableEq

/-- `search_params.__init__` (lines 30 to 57): if any keyword argument was
supplied, read all five keys in order (a missing key raises KeyError,
modelled as `Except.error`); otherwise install the fixed defaults. -/
def search_params_init (k : Kwargs) : Except String search_params :=
  if k.isEmpty then
    .ok { start_date := "2020-01-01", start_time := "00:00:00",
          end_date := "2020-01-01", end_time := "01:00:00",
          bounding_box := (-45, -45, 45, 45) }
  else
    match k.start_date with
    | none => .error "KeyError: start_date"
    | some sd =>
      match k.start_time with
      | none => .error "KeyError: start_time"
      | some st =>
        match k.end_date with
        | none => .error "KeyError: end_date"
        | some ed =>
          match k.end_time with
          | none => .error "KeyError: end_time"
          | some et =>
            match k.bounding_box with
            | none => .error "KeyError: bounding_box"
            | some bb =>
              .ok { start_date := sd, start_time := st, end_date := ed,
                    end_time := et, bounding_box := bb }

/-- Opaque granule handle returned by the catalog search. -/
abbrev GranuleHandle := String

/-- Outcome of a pipeline step that may terminate the whole process:
either `sys.exit status` or a returned value. -/
inductive RunOutcome (α : Type) where
  | exit (status : Nat)
  | ret (value : α)
deriving DecidableEq

/-- The result handling of `get_data` (lines 88 to 92), taking the sequence
the catalog search returned: on an empty sequence print "No results found"
and `sys.exit(0)`; otherwise return the sequence unchanged.  The first
component collects the printed lines. -/
def get_data (results : List GranuleHandle) :
    List String × RunOutcome (List GranuleHandle) :=
  if results.length = 0 then (["No results found"], .exit 0)
  else ([], .ret results)

/-! ### Index bookkeeping used to state the row-alignment claims -/

/-- Number of `true` entries of a mask: how many rows the mask excludes. -/
def countTrue : List Bool → Nat
  | [] => 0
  | true :: rest => countTrue rest + 1
  | false :: rest => countTrue rest

/-- Original row indices kept by boolean indexing with `~mask`, in order. -/
def keptIndices : List Bool → List Nat
  | [] => []
  | true :: rest => (keptIndices rest).map (fun i => i + 1)
  | false :: rest => 0 :: (keptIndices rest).map (fun i => i + 1)

/-- Original row indices excluded by the mask, in order. -/
def excludedIndices : List Bool → List Nat
  | [] => []
  | true :: rest => 0 :: (excludedIndices rest).map (fun i => i + 1)
  | false :: rest => (excludedIndices rest).map (fun i => i + 1)

/-! ### Concrete datasets used as witnesses -/

/-- The 4-row grid of the spec: row 0 has only `lat` missing, row 1 only
`lon`, row 2 both, row 3 neither. -/
def ex4 : GriddedDataset :=
  { lat := [[none, some 1], [some 2, some 3], [none, some 4], [some 5, some 6]],
    lon := [[some 0, some 1], [none, some 3], [none, some 4], [some 5, some 6]],
    sea_surface_temperature :=
      [[[some 10, some 11], [some 12, some 13], [some 14, some 15], [some 16, some 17]]],
    time_coverage_start := "2020-01-01T00:00:00Z" }

/-- First SST time slice of `ex4`. -/
def ex4_sst0 : List (List Value) :=
  [[some 10, some 11], [some 12, some 13], [some 14, some 15], [some 16, some 17]]

/-- The cleaned sample `data_cleanup` produces from `ex4`: rows 0, 1, 3
kept, row 2 dropped. -/
def ex4_out : CleanedSample :=
  { lon_cleaned := [[some 0, some 1], [none, some 3], [some 5, some 6]],
    lat_cleaned := [[none, some 1], [some 2, some 3], [some 5, some 6]],
    sst_cleaned := [[some 10, some 11], [some 12, some 13], [some 16, some 17]],
    time_coverage_start := "2020-01-01T00:00:00Z" }

/-- A 1-row dataset with no NaN anywhere. -/
def exClean : GriddedDataset :=
  { lat := [[some 1, some 2]], lon := [[some 3, some 4]],
    sea_surface_temperature := [[[some 5, some 6]]],
    time_coverage_start := "clean" }

/-- The cleaned sample `data_cleanup` produces from `exClean`: everything
passes through. -/
def exCleanOut : CleanedSample :=
  { lon_cleaned := [[some 3, some 4]], lat_cleaned := [[some 1, some 2]],
    sst_cleaned := [[some 5, some 6]], time_coverage_start := "clean" }

/-- A 2-row dataset in which every row has a NaN in both `lat` and `lon`. -/
def exBad : GriddedDataset :=
  { lat := [[none, some 1], [some 2, none]], lon := [[none, some 3], [none, some 4]],
    sea_surface_temperature := [[[some 5, some 6], [some 7, some 8]]],
    time_coverage_start := "bad" }

/-- A 1-row dataset whose SST row contains NaN while `lat` and `lon` are
NaN-free. -/
def exNanSst : GriddedDataset :=
  { lat := [[some 1]], lon := [[some 2]],
    sea_surface_temperature := [[[none]]],
    time_coverage_start := "nansst" }

/-! ### Claim theorems: search parameters and result handling -/

/-- C6: constructing `search_params` with zero arguments yields exactly the
default tuple start_date "2020-01-01", start_time "00:00:00", end_date
"2020-01-01", end_time "01:00:00", bounding_box (-45, -45, 45, 45). -/
theorem c6_default_params :
    search_params_init ⟨none, none, none, none, none⟩ =
      Except.ok { start_date := "2020-01-01", start_time := "00:00:00",
                  end_date := "2020-01-01", end_time := "01:00:00",
                  bounding_box := (-45, -45, 45, 45) } := rfl

/-- C7: constructing `search_params` with a partial parameter set (at least
one parameter supplied, yet some parameter missing) fails at construction
time with a KeyError; defaults apply only to the zero-argument call. -/
theorem c7_partial_params_fail (k : Kwargs)
    (hne : k.isEmpty = false)
    (hmiss : k.start_date = none ∨ k.start_time = none ∨ k.end_date = none ∨
      k.end_time = none ∨ k.bounding_box = none) :
    ∃ e, search_params_init k = Except.error e := by
  obtain ⟨sd, st, ed, et, bb⟩ := k
  rcases sd with _ | sd <;> rcases st with _ | st <;> rcases ed with _ | ed <;>
    rcases et with _ | et <;> rcases bb with _ | bb <;>
      simp_all [search_params_init, Kwargs.isEmpty]

/-- Witness for C7 at a concrete partial keyword set. -/
theorem c7_witness :
    ∃ e, search_params_init ⟨some "2021-05-05", none, none, none, none⟩ =
      Except.error e :=
  c7_partial_params_fail ⟨some "2021-05-05", none, none, none, none⟩ rfl
    (Or.inr (Or.inl rfl))

/-- C8: on an empty catalog result sequence `get_data` prints a notice and
terminates the run with exit status zero; on a non-empty sequence it
returns the sequence unchanged. -/
theorem c8_get_data (results : List GranuleHandle) :
    (results = [] → get_data results = (["No results found"], RunOutcome.exit 0)) ∧
    (results ≠ [] → get_data results = ([], RunOutcome.ret results)) := by
  constructor
  · intro h; subst h; rfl
  · intro h
    have hlen : results.length ≠ 0 := by
      simpa [List.length_eq_zero] using h
    simp [get_data, hlen]

/-- Witness for C8 on an empty and a singleton result sequence. -/
theorem c8_witness :
    get_data [] = (["No results found"], RunOutcome.exit 0) ∧
    get_data ["granule1"] = ([], RunOutcome.ret ["granule1"]) :=
  ⟨(c8_get_data []).1 rfl, (c8_get_data ["granule1"]).2 (by simp)⟩

/-! ### Claim theorems on `data_cleanup` that need no mask lemmas -/

/-- C5: `data_cleanup` leaves its input dataset unchanged, and a second run
on that same dataset returns the same output as the first. -/
theorem c5_no_mutation_idempotent (ds : GriddedDataset) :
    (data_cleanup_run ds).2 = ds ∧
    (data_cleanup_run (data_cleanup_run ds).2).1 = (data_cleanup_run ds).1 :=
  ⟨rfl, rfl⟩

/-- C9: whenever `data_cleanup` returns a cleaned sample, its
`time_coverage_start` equals the input dataset's, independent of which rows
were excluded. -/
theorem c9_time_coverage (ds : GriddedDataset) (out : CleanedSample)
    (hout : data_cleanup ds = some out) :
    out.time_coverage_start = ds.time_coverage_start := by
  cases h : ds.sea_surface_temperature with
  | nil => simp [data_cleanup, h] at hout
  | cons s rest =>
      simp only [data_cleanup, h, Option.some.injEq] at hout
      rw [← hout]

/-- Witness for C9 on the 4-row dataset. -/
theorem c9_witness : ex4_out.time_coverage_start = ex4.time_coverage_start :=
  c9_time_coverage ex4 ex4_out rfl

/-! ### Helper lemmas about masks, boolean indexing and kept indices -/

theorem countTrue_le_length : ∀ mask : List Bool, countTrue mask ≤ mask.length
  | [] => Nat.le_refl 0
  | true :: ms => by simpa [countTrue] using countTrue_le_length ms
  | false :: ms => by
      simp only [countTrue, List.length_cons]
      exact Nat.le_succ_of_le (countTrue_le_length ms)

theorem length_maskFilter : ∀ (mask : List Bool) (xs : List α),
    mask.length = xs.length →
    (maskFilter mask xs).length = xs.length - countTrue mask
  | [], [], _ => rfl
  | [], _ :: _, h => by simp at h
  | _ :: _, [], h => by simp at h
  | b :: ms, x :: xs, h => by
      have hlen : ms.length = xs.length := by simpa using h
      have ih := length_maskFilter ms xs hlen
      have hct := countTrue_le_length ms
      cases b with
      | true => simp only [maskFilter, if_true, countTrue, List.length_cons]; omega
      | false =>
          simp only [maskFilter, countTrue, List.length_cons]
          rw [if_neg (by simp)]
          simp only [List.length_cons]
          omega

theorem maskFilter_eq_map (d : α) : ∀ (mask : List Bool) (xs : List α),
    mask.length = xs.length →
    maskFilter mask xs = (keptIndices mask).map (fun i => xs.getD i d)
  | [], [], _ => rfl
  | [], _ :: _, h => by simp at h
  | _ :: _, [], h => by simp at h
  | b :: ms, x :: xs, h => by
      have ih := maskFilter_eq_map d ms xs (by simpa using h)
      cases b with
      | true =>
          simp only [maskFilter, if_true, keptIndices, List.map_map]
          rw [ih]
          rfl
      | false =>
          simp only [maskFilter, if_false, keptIndices, List.map_map, List.map_cons]
          rw [ih]
          exact congrArg₂ _ rfl rfl

theorem maskFilter_all_true : ∀ (mask : List Bool) (xs : List α),
    (∀ b ∈ mask, b = true) → maskFilter mask xs = []
  | [], [], _ => rfl
  | [], _ :: _, _ => rfl
  | _ :: _, [], _ => rfl
  | b :: ms, x :: xs, h => by
      have hb := h b (List.mem_cons_self b ms)
      subst hb
      simp only [maskFilter, if_true]
      exact maskFilter_all_true ms xs (fun c hc => h c (List.mem_cons_of_mem _ hc))

theorem maskFilter_all_false : ∀ (mask : List Bool) (xs : List α),
    (∀ b ∈ mask, b = false) → mask.length = xs.length → maskFilter mask xs = xs
  | [], [], _, _ => rfl
  | [], _ :: _, _, h => by simp at h
  | _ :: _, [], _, h => by simp at h
  | b :: ms, x :: xs, hall, h => by
      have hb := hall b (List.mem_cons_self b ms)
      subst hb
      simp only [maskFilter]
      rw [if_neg (by simp)]
      simp only [List.cons.injEq, true_and]
      exact maskFilter_all_false ms xs
        (fun c hc => hall c (List.mem_cons_of_mem _ hc)) (by simpa using h)

theorem zipWith_and_all_false_left : ∀ (A B : List Bool),
    (∀ a ∈ A, a = false) →
    ∀ b ∈ List.zipWith (fun a c => a && c) A B, b = false
  | [], _, _ => by simp
  | _ :: _, [], _ => by simp
  | a :: A, c :: B, h => by
      intro b hb
      rcases List.mem_cons.mp hb with h1 | h2
      · rw [h1, h a (List.mem_cons_self a A)]; rfl
      · exact zipWith_and_all_false_left A B
          (fun x hx => h x (List.mem_cons_of_mem _ hx)) b h2

theorem zipWith_and_all_true : ∀ (A B : List Bool),
    (∀ a ∈ A, a = true) → (∀ c ∈ B, c = true) →
    ∀ b ∈ List.zipWith (fun a c => a && c) A B, b = true
  | [], _, _, _ => by simp
  | _ :: _, [], _, _ => by simp
  | a :: A, c :: B, hA, hB => by
      intro b hb
      rcases List.mem_cons.mp hb with h1 | h2
      · rw [h1, hA a (List.mem_cons_self a A), hB c (List.mem_cons_self c B)]; rfl
      · exact zipWith_and_all_true A B
          (fun x hx => hA x (List.mem_cons_of_mem _ hx))
          (fun x hx => hB x (List.mem_cons_of_mem _ hx)) b h2

theorem keptIndices_lt : ∀ (mask : List Bool), ∀ i ∈ keptIndices mask, i < mask.length
  | [] => by simp [keptIndices]
  | b :: ms => by
      intro i hi
      cases b with
      | true =>
          simp only [keptIndices, List.mem_map] at hi
          obtain ⟨a, ha, rfl⟩ := hi
          simpa using Nat.succ_lt_succ (keptIndices_lt ms a ha)
      | false =>
          simp only [keptIndices, List.mem_cons, List.mem_map] at hi
          rcases hi with rfl | ⟨a, ha, rfl⟩
          · simp
          · simpa using Nat.succ_lt_succ (keptIndices_lt ms a ha)

theorem mem_keptIndices : ∀ (mask : List Bool) (i : Nat), i < mask.length →
    (i ∈ keptIndices mask ↔ mask.getD i true = false)
  | [], i, h => by simp at h
  | b :: ms, 0, _ => by
      cases b <;> simp [keptIndices, List.mem_map]
  | b :: ms, i + 1, h => by
      have ih := mem_keptIndices ms i (by simpa using h)
      cases b with
      | true =>
          simp only [keptIndices, List.mem_map, List.getD_cons_succ]
          constructor
          · rintro ⟨a, ha, hai⟩
            have : a = i := by omega
            exact ih.mp (this ▸ ha)
          · intro hm
            exact ⟨i, ih.mpr hm, rfl⟩
      | false =>
          simp only [keptIndices, List.mem_cons, List.mem_map, List.getD_cons_succ]
          constructor
          · rintro (h0 | ⟨a, ha, hai⟩)
            · omega
            · have : a = i := by omega
              exact ih.mp (this ▸ ha)
          · intro hm
            exact Or.inr ⟨i, ih.mpr hm, rfl⟩

theorem exists_getD_of_mem {a : Nat} : ∀ {l : List Nat}, a ∈ l →
    ∃ j, j < l.length ∧ l.getD j 0 = a := by
  intro l h
  induction l with
  | nil => simp at h
  | cons x xs ih =>
      rcases List.mem_cons.mp h with h1 | h2
      · exact ⟨0, by simp, h1.symm⟩
      · obtain ⟨j, hj, hg⟩ := ih h2
        exact ⟨j + 1, by simpa using Nat.succ_lt_succ hj, by simpa using hg⟩

theorem getD_map_of_lt (f : Nat → α) (d : α) : ∀ (l : List Nat) (j : Nat),
    j < l.length → (l.map f).getD j d = f (l.getD j 0)
  | [], j, h => by simp at h
  | x :: xs, 0, _ => rfl
  | x :: xs, j + 1, h => getD_map_of_lt f d xs j (by simpa using h)

theorem getD_zipWith_and : ∀ (A B : List Bool) (i : Nat),
    i < A.length → i < B.length →
    (List.zipWith (fun a c => a && c) A B).getD i true =
      (A.getD i true && B.getD i true)
  | [], _, i, h, _ => by simp at h
  | _ :: _, [], i, _, h => by simp at h
  | a :: A, c :: B, 0, _, _ => rfl
  | a :: A, c :: B, i + 1, h1, h2 =>
      getD_zipWith_and A B i (by simpa using h1) (by simpa using h2)

theorem getD_nan_row_mask : ∀ (grid : List (List Value)) (i : Nat),
    i < grid.length →
    (nan_row_mask grid).getD i true = rowHasNaN (grid.getD i [])
  | [], i, h => by simp at h
  | r :: g, 0, _ => rfl
  | r :: g, i + 1, h => getD_nan_row_mask g i (by simpa using h)

theorem length_nan_row_mask (grid : List (List Value)) :
    (nan_row_mask grid).length = grid.length := by
  simp [nan_row_mask]

theorem length_combined_mask (ds : GriddedDataset) {n : Nat}
    (hlat : ds.lat.length = n) (hlon : ds.lon.length = n) :
    (combined_mask ds).length = n := by
  simp [combined_mask, nan_row_mask, hlat, hlon]

theorem combined_mask_getD (ds : GriddedDataset) {n i : Nat}
    (hlat : ds.lat.length = n) (hlon : ds.lon.length = n) (hi : i < n) :
    (combined_mask ds).getD i true =
      (rowHasNaN (ds.lat.getD i []) && rowHasNaN (ds.lon.getD i [])) := by
  unfold combined_mask
  rw [getD_zipWith_and _ _ i (by rw [length_nan_row_mask, hlat]; exact hi)
        (by rw [length_nan_row_mask, hlon]; exact hi),
      getD_nan_row_mask _ i (by rw [hlat]; exact hi),
      getD_nan_row_mask _ i (by rw [hlon]; exact hi)]

theorem nan_row_mask_all_false (grid : List (List Value))
    (h : ∀ row ∈ grid, rowHasNaN row = false) :
    ∀ a ∈ nan_row_mask grid, a = false := by
  intro a ha
  obtain ⟨row, hrow, rfl⟩ := List.mem_map.mp ha
  exact h row hrow

theorem nan_row_mask_all_true (grid : List (List Value))
    (h : ∀ row ∈ grid, rowHasNaN row = true) :
    ∀ a ∈ nan_row_mask grid, a = true := by
  intro a ha
  obtain ⟨row, hrow, rfl⟩ := List.mem_map.mp ha
  exact h row hrow

/-! ### Claim theorems on the exclusion mask and row alignment -/

/-- C1: the combined exclusion mask at row i is true iff row i of `lat`
contains at least one NaN AND row i of `lon` contains at least one NaN
(logical AND, not OR); on the 4-row grid where row 0 has only `lat`
missing, row 1 only `lon`, row 2 both and row 3 neither, the kept rows are
0, 1, 3 and the excluded row is 2. -/
theorem c1_combined_mask_and :
    (∀ (ds : GriddedDataset) (n i : Nat),
        ds.lat.length = n → ds.lon.length = n → i < n →
        ((combined_mask ds).getD i true = true ↔
          rowHasNaN (ds.lat.getD i []) = true ∧
            rowHasNaN (ds.lon.getD i []) = true)) ∧
    keptIndices (combined_mask ex4) = [0, 1, 3] ∧
    excludedIndices (combined_mask ex4) = [2] := by
  refine ⟨?_, rfl, rfl⟩
  intro ds n i hlat hlon hi
  rw [combined_mask_getD ds hlat hlon hi]
  exact iff_of_eq (Bool.and_eq_true _ _)

/-- Witness for C1 at row 2 of the 4-row grid. -/
theorem c1_witness :
    (combined_mask ex4).getD 2 true = true ↔
      rowHasNaN (ex4.lat.getD 2 []) = true ∧ rowHasNaN (ex4.lon.getD 2 []) = true :=
  c1_combined_mask_and.1 ex4 4 2 rfl rfl (by decide)

/-- C2: the three cleaned sequences have the same length, equal to the input
row count minus the number of mask-excluded rows, and each equals the
selection of the corresponding original grid at the one shared list of kept
original row indices (so no row is kept in one output and dropped from
another). -/
theorem c2_row_alignment (ds : GriddedDataset) (out : CleanedSample)
    (sst0 : List (List Value)) (n : Nat)
    (hs : ds.sea_surface_temperature.head? = some sst0)
    (hlat : ds.lat.length = n) (hlon : ds.lon.length = n) (hsst : sst0.length = n)
    (hout : data_cleanup ds = some out) :
    out.lon_cleaned.length = n - countTrue (combined_mask ds) ∧
    out.lat_cleaned.length = n - countTrue (combined_mask ds) ∧
    out.sst_cleaned.length = n - countTrue (combined_mask ds) ∧
    out.lon_cleaned =
      (keptIndices (combined_mask ds)).map (fun i => ds.lon.getD i []) ∧
    out.lat_cleaned =
      (keptIndices (combined_mask ds)).map (fun i => ds.lat.getD i []) ∧
    out.sst_cleaned =
      (keptIndices (combined_mask ds)).map (fun i => sst0.getD i []) ∧
    ∀ i ∈ keptIndices (combined_mask ds), i < n := by
  cases h : ds.sea_surface_temperature with
  | nil => rw [h] at hs; simp at hs
  | cons s rest =>
      rw [h] at hs
      simp only [List.head?_cons, Option.some.injEq] at hs
      subst hs
      simp only [data_cleanup, h, Option.some.injEq] at hout
      subst hout
      have hmask : (combined_mask ds).length = n := length_combined_mask ds hlat hlon
      refine ⟨?_, ?_, ?_, ?_, ?_, ?_, ?_⟩
      · show (maskFilter (combined_mask ds) ds.lon).length = _
        rw [length_maskFilter _ _ (by rw [hmask, hlon]), hlon]
      · show (maskFilter (combined_mask ds) ds.lat).length = _
        rw [length_maskFilter _ _ (by rw [hmask, hlat]), hlat]
      · show (maskFilter (combined_mask ds) s).length = _
        rw [length_maskFilter _ _ (by rw [hmask, hsst]), hsst]
      · exact maskFilter_eq_map [] _ _ (by rw [hmask, hlon])
      · exact maskFilter_eq_map [] _ _ (by rw [hmask, hlat])
      · exact maskFilter_eq_map [] _ _ (by rw [hmask, hsst])
      · intro i hi
        have := keptIndices_lt _ i hi
        rwa [hmask] at this

/-- Witness for C2 on the 4-row grid. -/
theorem c2_witness :
    ex4_out.lon_cleaned.length = 4 - countTrue (combined_mask ex4) :=
  (c2_row_alignment ex4 ex4_out ex4_sst0 4 rfl rfl rfl rfl rfl).1

/-- C3: when the `lat` and `lon` grids contain no NaN anywhere,
`data_cleanup` returns all rows of `lat`, `lon` and the first SST time
slice unchanged and in their original order. -/
theorem c3_no_nan_pass_through (ds : GriddedDataset) (out : CleanedSample)
    (sst0 : List (List Value)) (n : Nat)
    (hs : ds.sea_surface_temperature.head? = some sst0)
    (hlat : ds.lat.length = n) (hlon : ds.lon.length = n) (hsst : sst0.length = n)
    (hA : ∀ row ∈ ds.lat, rowHasNaN row = false)
    (hB : ∀ row ∈ ds.lon, rowHasNaN row = false)
    (hout : data_cleanup ds = some out) :
    out.lon_cleaned = ds.lon ∧ out.lat_cleaned = ds.lat ∧ out.sst_cleaned = sst0 := by
  cases h : ds.sea_surface_temperature with
  | nil => rw [h] at hs; simp at hs
  | cons s rest =>
      rw [h] at hs
      simp only [List.head?_cons, Option.some.injEq] at hs
      subst hs
      simp only [data_cleanup, h, Option.some.injEq] at hout
      subst hout
      have hmaskF : ∀ b ∈ combined_mask ds, b = false :=
        zipWith_and_all_false_left _ _ (nan_row_mask_all_false _ hA)
      have hmask : (combined_mask ds).length = n := length_combined_mask ds hlat hlon
      exact ⟨maskFilter_all_false _ _ hmaskF (by rw [hmask, hlon]),
             maskFilter_all_false _ _ hmaskF (by rw [hmask, hlat]),
             maskFilter_all_false _ _ hmaskF (by rw [hmask, hsst])⟩

/-- Witness for C3 on a NaN-free dataset. -/
theorem c3_witness : exCleanOut.lon_cleaned = exClean.lon :=
  (c3_no_nan_pass_through exClean exCleanOut [[some 5, some 6]] 1 rfl rfl rfl rfl
    (by decide) (by decide) rfl).1

/-- C4: when every row has at least one NaN in `lat` and at least one NaN
in `lon`, `data_cleanup` succeeds (no error) and its three output
sequences are empty. -/
theorem c4_all_rows_excluded (ds : GriddedDataset) (sst0 : List (List Value))
    (hs : ds.sea_surface_temperature.head? = some sst0)
    (hA : ∀ row ∈ ds.lat, rowHasNaN row = true)
    (hB : ∀ row ∈ ds.lon, rowHasNaN row = true) :
    data_cleanup ds =
      some { lon_cleaned := [], lat_cleaned := [], sst_cleaned := [],
             time_coverage_start := ds.time_coverage_start } := by
  cases h : ds.sea_surface_temperature with
  | nil => rw [h] at hs; simp at hs
  | cons s rest =>
      have hmaskT : ∀ b ∈ combined_mask ds, b = true :=
        zipWith_and_all_true _ _ (nan_row_mask_all_true _ hA)
          (nan_row_mask_all_true _ hB)
      simp only [data_cleanup, h, Option.some.injEq]
      rw [maskFilter_all_true _ _ hmaskT, maskFilter_all_true _ _ hmaskT,
          maskFilter_all_true _ _ hmaskT]

/-- Witness for C4 on a dataset whose every row is invalid on both axes. -/
theorem c4_witness :
    data_cleanup exBad =
      some { lon_cleaned := [], lat_cleaned := [], sst_cleaned := [],
             time_coverage_start := "bad" } :=
  c4_all_rows_excluded exBad [[some 5, some 6], [some 7, some 8]] rfl
    (by decide) (by decide)

/-- C10: the exclusion mask is computed from `lat` and `lon` alone (never
from the SST values), and a row whose `lat` and `lon` rows are NaN-free is
always kept, its SST row, NaN values included, passed through to
`sst_cleaned`. -/
theorem c10_mask_independent_of_sst (ds : GriddedDataset)
    (sst0 : List (List Value)) (n i : Nat)
    (hs : ds.sea_surface_temperature.head? = some sst0)
    (hlat : ds.lat.length = n) (hlon : ds.lon.length = n) (hsst : sst0.length = n)
    (hi : i < n)
    (hclat : rowHasNaN (ds.lat.getD i []) = false)
    (hclon : rowHasNaN (ds.lon.getD i []) = false) :
    (∀ ds2 : GriddedDataset, ds2.lat = ds.lat → ds2.lon = ds.lon →
        combined_mask ds2 = combined_mask ds) ∧
    (combined_mask ds).getD i true = false ∧
    ∃ out j, data_cleanup ds = some out ∧ j < out.sst_cleaned.length ∧
      out.lon_cleaned.getD j [] = ds.lon.getD i [] ∧
      out.lat_cleaned.getD j [] = ds.lat.getD i [] ∧
      out.sst_cleaned.getD j [] = sst0.getD i [] := by
  have hmaskD : (combined_mask ds).getD i true = false := by
    rw [combined_mask_getD ds hlat hlon hi, hclat, hclon]; rfl
  have hmask : (combined_mask ds).length = n := length_combined_mask ds hlat hlon
  refine ⟨fun ds2 h1 h2 => by simp only [combined_mask, h1, h2], hmaskD, ?_⟩
  cases h : ds.sea_surface_temperature with
  | nil => rw [h] at hs; simp at hs
  | cons s rest =>
      rw [h] at hs
      simp only [List.head?_cons, Option.some.injEq] at hs
      subst hs
      have hmem : i ∈ keptIndices (combined_mask ds) :=
        (mem_keptIndices _ i (by rw [hmask]; exact hi)).mpr hmaskD
      obtain ⟨j, hj, hgj⟩ := exists_getD_of_mem hmem
      refine ⟨{ lon_cleaned := maskFilter (combined_mask ds) ds.lon,
                lat_cleaned := maskFilter (combined_mask ds) ds.lat,
                sst_cleaned := maskFilter (combined_mask ds) s,
                time_coverage_start := ds.time_coverage_start },
              j, by simp only [data_cleanup, h], ?_, ?_, ?_, ?_⟩
      · show j < (maskFilter (combined_mask ds) s).length
        rw [maskFilter_eq_map ([] : List Value) _ _ (by rw [hmask, hsst])]
        simpa using hj
      · show (maskFilter (combined_mask ds) ds.lon).getD j [] = _
        rw [maskFilter_eq_map ([] : List Value) _ _ (by rw [hmask, hlon]),
            getD_map_of_lt _ _ _ j hj, hgj]
      · show (maskFilter (combined_mask ds) ds.lat).getD j [] = _
        rw [maskFilter_eq_map ([] : List Value) _ _ (by rw [hmask, hlat]),
            getD_map_of_lt _ _ _ j hj, hgj]
      · show (maskFilter (combined_mask ds) s).getD j [] = _
        rw [maskFilter_eq_map ([] : List Value) _ _ (by rw [hmask, hsst]),
            getD_map_of_lt _ _ _ j hj, hgj]

/-- Witness for C10 on a dataset whose single row has a NaN SST value but
NaN-free coordinates. -/
theorem c10_witness : (combined_mask exNanSst).getD 0 true = false :=
  (c10_mask_independent_of_sst exNanSst [[none]] 1 0 rfl rfl rfl rfl
    (by decide) rfl rfl).2.1

end EarthData
